import Mathlib

/-!
Verification of the feed-checker scripts of the Datasets repository:
`.github/scripts/check_gtfs_feeds.py` (static pipeline) and
`.github/scripts/check_realtime_feeds.py` (realtime pipeline).

The network is modelled by an `Outcome` per attempt: what one HTTP GET
against the record's URL yields.  A probe run is a function
`net : Nat → Outcome` giving the outcome of each attempt index; the
retry loops of both scripts are embedded as `probe_loop`, parameterised
by the per-attempt classification of the respective script.  Bytes are
`Nat` values, response headers are strings.
-/

namespace Datasets

/-- Configuration constant `MAX_RETRIES = 2` shared by both scripts. -/
def MAX_RETRIES : Nat := 2

/-- What a single network attempt (one `urlopen` call) produces:
a response with status code, body sample (the up-to-1024-byte read,
as byte values), `Content-Type` and `Content-Length` header strings;
or one of the exception classes the scripts catch
(`urllib.error.HTTPError`, `urllib.error.URLError`, `TimeoutError`,
any other `Exception`). -/
inductive Outcome where
  | response (status : Nat) (sample : List Nat) (ctype : String) (clen : String)
  | httpError (code : Nat) (reason : String)
  | urlError (reason : String)
  | timeout
  | exn (name : String) (msg : String)
  deriving DecidableEq, Repr

/-- Result classification of one loop iteration: `done r` means the
attempt returned `r` from `check_url`; `retry r` means the `except`
branch was taken and either the loop continues (`continue`) or, on the
last attempt, returns `r`. -/
inductive AttemptStep where
  | done (r : Bool × String × Nat)
  | retry (r : Bool × String × Nat)
  deriving DecidableEq, Repr

/-- `b' \t\n\r\x0b\x0c'`: the bytes Python's `bytes.strip()` removes. -/
def isAsciiSpaceByte (b : Nat) : Bool :=
  b == 0x20 || b == 0x09 || b == 0x0a || b == 0x0d || b == 0x0b || b == 0x0c

/-- Python `content_sample.strip()` on bytes: remove ASCII whitespace
bytes from both ends. -/
def bstrip (s : List Nat) : List Nat :=
  ((s.dropWhile isAsciiSpaceByte).reverse.dropWhile isAsciiSpaceByte).reverse

/-- `check_realtime_feeds.check_url` line 89:
`content_sample[0:2] in [b'\x0a', b'\x12', b'\x1a']` — the slice of the
FIRST TWO bytes is compared against one-byte values. -/
def rt_is_protobuf (sample : List Nat) : Bool :=
  sample.take 2 == [0x0a] || sample.take 2 == [0x12] || sample.take 2 == [0x1a]

/-- `check_realtime_feeds.check_url` line 90:
`content_sample.strip().startswith(b'{') or content_sample.strip().startswith(b'[')`. -/
def rt_is_json (sample : List Nat) : Bool :=
  (bstrip sample).take 1 == [0x7b] || (bstrip sample).take 1 == [0x5b]

/-- One attempt of `check_realtime_feeds.check_url` (lines 65-135): the
body of the `for attempt in range(retries)` loop, classifying the
attempt's outcome. -/
def rt_attempt (o : Outcome) : AttemptStep :=
  match o with
  | .response status sample ctype clen =>
    if status = 200 then
      if sample.length > 0 then
        if rt_is_protobuf sample then
          .done (true, "OK (GTFS-RT protobuf, " ++ clen ++ " bytes)", status)
        else if rt_is_json sample then
          .done (true, "OK (JSON, " ++ clen ++ " bytes)", status)
        else
          .done (true, "OK (" ++ ctype ++ ", " ++ clen ++ " bytes)", status)
      else
        .done (false, "Empty response", status)
    else if status = 204 then
      .done (true, "OK (No Content - no updates available)", status)
    else if status = 429 then
      .done (true, "OK (Rate limited - endpoint is working)", status)
    else
      .done (false, "HTTP " ++ toString status, status)
  | .httpError code reason =>
    if code = 429 then
      .done (true, "OK (Rate limited - endpoint is working)", code)
    else
      .retry (false, "HTTP " ++ toString code ++ ": " ++ reason, code)
  | .urlError reason => .retry (false, "Connection error: " ++ reason, 0)
  | .timeout => .retry (false, "Timeout", 0)
  | .exn name msg => .retry (false, "Error: " ++ name ++ ": " ++ msg, 0)

/-- One attempt of `check_gtfs_feeds.check_url` (lines 52-105): ZIP
signature `PK\x03\x04` check, then non-empty check, on HTTP 200. -/
def static_attempt (o : Outcome) : AttemptStep :=
  match o with
  | .response status sample ctype clen =>
    if status = 200 then
      if sample.take 4 == [0x50, 0x4b, 0x03, 0x04] then
        .done (true, "OK (ZIP file, " ++ clen ++ " bytes)", status)
      else if sample.length > 0 then
        .done (true, "OK (" ++ ctype ++ ", " ++ clen ++ " bytes)", status)
      else
        .done (false, "Empty response", status)
    else
      .done (false, "HTTP " ++ toString status, status)
  | .httpError code reason => .retry (false, "HTTP " ++ toString code ++ ": " ++ reason, code)
  | .urlError reason => .retry (false, "Connection error: " ++ reason, 0)
  | .timeout => .retry (false, "Timeout", 0)
  | .exn name msg => .retry (false, "Error: " ++ name ++ ": " ++ msg, 0)

/-- The shared `for attempt in range(retries)` retry loop of both
`check_url` functions: run `step` on attempt `start`; a `done` result
returns immediately; a `retry` result returns if this was the last
attempt (`attempt < retries - 1` false) and otherwise continues with
the next attempt.  When the range is empty the fall-through
`return False, "Max retries exceeded", 0` applies.  The second
component counts the attempts actually performed. -/
def probe_loop (step : Outcome → AttemptStep) (net : Nat → Outcome) :
    Nat → Nat → (Bool × String × Nat) × Nat
  | _start, 0 => ((false, "Max retries exceeded", 0), 0)
  | start, fuel + 1 =>
    match step (net start) with
    | .done r => (r, 1)
    | .retry r =>
      if fuel = 0 then (r, 1)
      else
        let p := probe_loop step net (start + 1) fuel
        (p.1, p.2 + 1)

/-- `check_realtime_feeds.check_url(url, retries)`: the result triple. -/
def rt_check_url (net : Nat → Outcome) (retries : Nat) : Bool × String × Nat :=
  (probe_loop rt_attempt net 0 retries).1

/-- Number of attempts the realtime `check_url` actually performs. -/
def rt_attempts_used (net : Nat → Outcome) (retries : Nat) : Nat :=
  (probe_loop rt_attempt net 0 retries).2

/-- `check_gtfs_feeds.check_url(url, retries)`: the result triple. -/
def static_check_url (net : Nat → Outcome) (retries : Nat) : Bool × String × Nat :=
  (probe_loop static_attempt net 0 retries).1

/-- Outcomes on which the static `check_url` takes an `except` branch
(and hence may retry): every non-response outcome. -/
def staticRetryable : Outcome → Bool
  | .response _ _ _ _ => false
  | _ => true

/-- Outcomes on which the realtime `check_url` takes a retrying
`except` branch: every non-response outcome except an `HTTPError`
with code 429 (which short-circuits to success). -/
def rtRetryable : Outcome → Bool
  | .response _ _ _ _ => false
  | .httpError code _ => !(code == 429)
  | _ => true

/-- Modelled from Python's standard library `urllib.parse.urlsplit`
(only used by the scripts through `urlparse(u).scheme` /
`urlparse(u).netloc`): a character allowed inside a URL scheme. -/
def isSchemeChar (c : Char) : Bool :=
  c.isAlphanum || c == '+' || c == '-' || c == '.'

/-- Modelled from `urllib.parse.urlsplit`: a candidate scheme (the text
before the first colon) is accepted when it is non-empty, starts with a
letter and consists of scheme characters. -/
def validScheme (xs : List Char) : Bool :=
  match xs with
  | [] => false
  | c :: rest => c.isAlpha && (c :: rest).all isSchemeChar

/-- Modelled from `urllib.parse.urlsplit`: split off the scheme,
returning `(scheme, rest)`; when the prefix before the first colon is
not a valid scheme the whole input is the rest and the scheme is empty. -/
def splitScheme (s : List Char) : List Char × List Char :=
  match s.span (fun c => !(c == ':')) with
  | (before, ':' :: after) =>
    if validScheme before then (before, after) else ([], s)
  | _ => ([], s)

/-- Modelled from `urllib.parse.urlsplit`: after the scheme, a netloc
is present exactly when the rest starts with `//`; it extends to the
next `/`, `?` or `#`. -/
def extractNetloc (rest : List Char) : List Char :=
  match rest with
  | '/' :: '/' :: r => r.takeWhile (fun c => !(c == '/') && !(c == '?') && !(c == '#'))
  | _ => []

/-- The validators' URL test (`parsed.scheme` and `parsed.netloc` both
truthy): the URL has a non-empty scheme and a non-empty netloc. -/
def url_has_scheme_netloc (url : String) : Bool :=
  let (scheme, rest) := splitScheme url.data
  !scheme.isEmpty && !(extractNetloc rest).isEmpty

/-- A static feed record, as far as `check_gtfs_feeds.py` reads it:
presence and value of the four keys the validator inspects.  `none`
models an absent key. -/
structure Feed where
  type? : Option String
  source? : Option String
  feedId? : Option String
  reference? : Option String
  deriving DecidableEq, Repr

/-- `required_fields = ['type', 'source', 'feedId', 'reference']` of
`validate_feed_structure`. -/
def feed_required_fields : List String := ["type", "source", "feedId", "reference"]

/-- Python `field in feed` for the keys the static validator checks. -/
def feed_has (f : Feed) : String → Bool
  | "type" => f.type?.isSome
  | "source" => f.source?.isSome
  | "feedId" => f.feedId?.isSome
  | "reference" => f.reference?.isSome
  | _ => false

/-- `check_gtfs_feeds.validate_feed_structure` (lines 110-137): the
required-field loop, the `type` check, then the `source` and
`reference` URL checks, accumulating `errors` in order; returns
`(len(errors) == 0, errors)`. -/
def validate_feed_structure (f : Feed) : Bool × List String :=
  let errors : List String :=
    feed_required_fields.foldl
      (fun acc field =>
        if !feed_has f field then acc ++ ["Missing required field: " ++ field] else acc)
      []
  let errors :=
    match f.type? with
    | some t => if t == "gtfs" then errors
        else errors ++ ["Invalid type: " ++ t ++ " (expected \x27gtfs\x27)"]
    | none => errors
  let errors :=
    match f.source? with
    | some s => if url_has_scheme_netloc s then errors
        else errors ++ ["Invalid source URL: " ++ s]
    | none => errors
  let errors :=
    match f.reference? with
    | some s => if url_has_scheme_netloc s then errors
        else errors ++ ["Invalid reference URL: " ++ s]
    | none => errors
  (errors.length == 0, errors)

/-- A realtime updater record, as far as `check_realtime_feeds.py`
reads it. -/
structure Updater where
  type? : Option String
  url? : Option String
  feedId? : Option String
  deriving DecidableEq, Repr

/-- `required_fields = ['type', 'url', 'feedId']` of
`validate_updater_structure`. -/
def updater_required_fields : List String := ["type", "url", "feedId"]

/-- Python `field in updater` for the keys the realtime validator
checks. -/
def updater_has (u : Updater) : String → Bool
  | "type" => u.type?.isSome
  | "url" => u.url?.isSome
  | "feedId" => u.feedId?.isSome
  | _ => false

/-- `valid_types` of `validate_updater_structure` (lines 155-165). -/
def valid_types : List String :=
  ["gtfs-http", "gtfs_http",
   "stop-time-updater", "stop_time_updater",
   "vehicle-positions", "vehicle_positions",
   "trip-updates", "trip_updates",
   "vehicle-parking-updater", "vehicle_parking_updater",
   "bike-rental-updater", "bike_rental_updater",
   "bike-park-updater", "bike_park_updater",
   "real-time-alerts", "real_time_alerts",
   "alerts", "alert"]

/-- `check_realtime_feeds.validate_updater_structure` (lines 140-175):
required-field loop, `type` membership check, `url` check, in order;
returns `(len(errors) == 0, errors)`. -/
def validate_updater_structure (u : Updater) : Bool × List String :=
  let errors : List String :=
    updater_required_fields.foldl
      (fun acc field =>
        if !updater_has u field then acc ++ ["Missing required field: " ++ field] else acc)
      []
  let errors :=
    match u.type? with
    | some t => if valid_types.contains t then errors
        else errors ++ ["Invalid type: " ++ t ++ " (expected valid OTP updater type)"]
    | none => errors
  let errors :=
    match u.url? with
    | some s => if url_has_scheme_netloc s then errors
        else errors ++ ["Invalid URL: " ++ s]
    | none => errors
  (errors.length == 0, errors)

/-- The result dict built by `check_realtime_feeds.check_updater`
(lines 187-197). -/
structure CheckResult where
  index : Nat
  type : String
  feedId : String
  url : String
  structure_valid : Bool
  structure_errors : List String
  url_success : Bool
  url_message : String
  status_code : Nat
  deriving DecidableEq, Repr

/-- `check_realtime_feeds.check_updater` (lines 178-213): build the
default result, run structural validation, return early when invalid
(leaving `url_success = False`), otherwise probe the URL.  `net` is
the network behaviour of the record's URL per attempt; the unused
`total` argument (only printed in Python) is omitted. -/
def check_updater (net : Nat → Outcome) (u : Updater) (index : Nat) : CheckResult :=
  let updater_type := u.type?.getD "unknown"
  let feed_id := u.feedId?.getD "unknown"
  let url := u.url?.getD "N/A"
  let result : CheckResult :=
    { index := index, type := updater_type, feedId := feed_id, url := url,
      structure_valid := true, structure_errors := [],
      url_success := false, url_message := "", status_code := 0 }
  let v := validate_updater_structure u
  let result := { result with structure_valid := v.1, structure_errors := v.2 }
  if !v.1 then result
  else
    let c := rt_check_url net MAX_RETRIES
    { result with url_success := c.1, url_message := c.2.1, status_code := c.2.2 }

/-- The counters and failure list the static `main` accumulates
(lines 152-156): `successful`, `failed`, `structure_errors`,
`failed_feeds` (feedId, source, error). -/
structure StaticStats where
  successful : Nat
  failed : Nat
  structure_errors : Nat
  failed_feeds : List (String × String × String)
  deriving DecidableEq, Repr

/-- All-zero initial statistics of the static `main`. -/
def staticStatsInit : StaticStats :=
  { successful := 0, failed := 0, structure_errors := 0, failed_feeds := [] }

/-- The body of the static `main` per-record loop
(`check_gtfs_feeds.py` lines 161-198): validate; on failure count a
structure error, append to `failed_feeds` and skip the probe
(`continue`); otherwise probe and count success or failure. -/
def static_process (net : Nat → Outcome) (st : StaticStats) (index : Nat)
    (feed : Feed) : StaticStats :=
  let feed_id := feed.feedId?.getD ("feed-" ++ toString index)
  let source_url := feed.source?.getD "N/A"
  let v := validate_feed_structure feed
  if !v.1 then
    { st with structure_errors := st.structure_errors + 1,
              failed_feeds := st.failed_feeds
                ++ [(feed_id, source_url, String.intercalate "; " v.2)] }
  else
    let c := static_check_url net MAX_RETRIES
    if c.1 then
      { st with successful := st.successful + 1 }
    else
      { st with failed := st.failed + 1,
                failed_feeds := st.failed_feeds ++ [(feed_id, source_url, c.2.1)] }

/-- The static `main` record loop over `enumerate(feeds, 1)`:
`net` gives the network behaviour per record index per attempt. -/
def static_run (net : Nat → Nat → Outcome) (feeds : List Feed) : StaticStats :=
  (List.enumFrom 1 feeds).foldl
    (fun st p => static_process (net p.1) st p.1 p.2) staticStatsInit

/-- Exit-code computation of the static `main` (lines 229-234):
`sys.exit(1)` when `failed > 0 or structure_errors > 0`, else
`sys.exit(0)`. -/
def static_exit (net : Nat → Nat → Outcome) (feeds : List Feed) : Nat :=
  let st := static_run net feeds
  if st.failed > 0 ∨ st.structure_errors > 0 then 1 else 0

/-- The counters and failure list the realtime `main` accumulates
(lines 235-238): failure entries carry (type, feedId, url, error). -/
structure RtStats where
  successful : Nat
  failed : Nat
  structure_errors : Nat
  failed_updaters : List (String × String × String × String)
  deriving DecidableEq, Repr

/-- All-zero initial statistics of the realtime `main`. -/
def rtStatsInit : RtStats :=
  { successful := 0, failed := 0, structure_errors := 0, failed_updaters := [] }

/-- The realtime `main` per-result aggregation (lines 272-298): a
structurally invalid result counts a structure error and joins the
failure list; a valid result counts as successful or failed by
`url_success`. -/
def rt_aggregate_step (st : RtStats) (r : CheckResult) : RtStats :=
  if !r.structure_valid then
    { st with structure_errors := st.structure_errors + 1,
              failed_updaters := st.failed_updaters
                ++ [(r.type, r.feedId, r.url, String.intercalate "; " r.structure_errors)] }
  else if r.url_success then
    { st with successful := st.successful + 1 }
  else
    { st with failed := st.failed + 1,
              failed_updaters := st.failed_updaters
                ++ [(r.type, r.feedId, r.url, r.url_message)] }

/-- The realtime `main` over `enumerate(updaters, 1)`: every updater is
checked by `check_updater` and the results — sorted back to input
order (line 268), which the concurrent execution does not change
semantically — are aggregated in order. -/
def rt_run (net : Nat → Nat → Outcome) (updaters : List Updater) : RtStats :=
  ((List.enumFrom 1 updaters).map (fun p => check_updater (net p.1) p.2 p.1)).foldl
    rt_aggregate_step rtStatsInit

/-- Exit-code computation of the realtime `main` (lines 327-332). -/
def rt_exit (net : Nat → Nat → Outcome) (updaters : List Updater) : Nat :=
  let st := rt_run net updaters
  if st.failed > 0 ∨ st.structure_errors > 0 then 1 else 0

/-- Bounded-fuel worker for `str.replace`: with `fuel ≥ s.length` it
replaces every non-overlapping occurrence of `p` in `s` by `r`, left
to right, exactly as Python's `str.replace` does for a non-empty
pattern (the scripts only call it with the two fixed non-empty
placeholder tokens). -/
def replaceAllAux (p r : List Char) : Nat → List Char → List Char
  | 0, s => s
  | _fuel + 1, [] => []
  | fuel + 1, c :: t =>
    if !p.isEmpty && p.isPrefixOf (c :: t) then
      r ++ replaceAllAux p r fuel ((c :: t).drop p.length)
    else
      c :: replaceAllAux p r fuel t

/-- Python `s.replace(p, r)` for non-empty `p` (model of the two
`content.replace(...)` calls in `load_realtime_data`). -/
def replaceAll (p r s : List Char) : List Char :=
  replaceAllAux p r s.length s

/-- The placeholder token `{{{JP_API_KEY}}}` (braces escaped). -/
def jpApiKeyToken : List Char := "\x7b\x7b\x7bJP_API_KEY\x7d\x7d\x7d".data

/-- The placeholder token `{{{JP_CHALLENGE_API_KEY}}}` (braces escaped). -/
def jpChallengeApiKeyToken : List Char := "\x7b\x7b\x7bJP_CHALLENGE_API_KEY\x7d\x7d\x7d".data

/-- The substitution step of `check_realtime_feeds.load_realtime_data`
(lines 41-46): replace `{{{JP_API_KEY}}}` by the `JP_API_KEY`
environment value, then `{{{JP_CHALLENGE_API_KEY}}}` by the
`JP_CHALLENGE_API_KEY` environment value, on the raw document text
before JSON parsing.  `env` models `os.environ.get(name, '')`. -/
def load_substitute (content : List Char) (env : String → List Char) : List Char :=
  let jp_api_key := env "JP_API_KEY"
  let jp_challenge_api_key := env "JP_CHALLENGE_API_KEY"
  replaceAll jpChallengeApiKeyToken jp_challenge_api_key
    (replaceAll jpApiKeyToken jp_api_key content)

/-- `p` occurs as a contiguous segment of `s`. -/
def containsSeg (p : List Char) : List Char → Bool
  | [] => p.isEmpty
  | c :: t => p.isPrefixOf (c :: t) || containsSeg p t

/-- Concrete environment used to exercise the loader substitution. -/
def envWitness : String → List Char :=
  fun n => if n == "JP_API_KEY" then "AK".data else "CK".data

example : load_substitute "k=\x7b\x7b\x7bJP_API_KEY\x7d\x7d\x7d;".data
    (fun n => if n == "JP_API_KEY" then "SECRET".data else "".data)
    = "k=SECRET;".data := by decide

example : url_has_scheme_netloc "http://example.com/feed.zip" = true := by decide

example : url_has_scheme_netloc "example.com/feed.zip" = false := by decide

example : url_has_scheme_netloc "http:///feed.zip" = false := by decide

example : validate_feed_structure
    { type? := some "gtfs", source? := some "http://x/feed.zip",
      feedId? := some "A", reference? := some "http://x/info" } = (true, []) := by decide

example : validate_feed_structure
    { type? := some "gtfs2", source? := some "relative/path",
      feedId? := none, reference? := some "http://x/info" }
    = (false, ["Missing required field: feedId",
               "Invalid type: gtfs2 (expected \x27gtfs\x27)",
               "Invalid source URL: relative/path"]) := by decide

example : validate_updater_structure
    { type? := some "vehicle-positions", url? := some "http://x/vp", feedId? := some "B" }
    = (true, []) := by decide

example : rt_check_url (fun _ => .response 200 [0x0a] "t" "1") 2
    = (true, "OK (GTFS-RT protobuf, 1 bytes)", 200) := by decide

example : rt_check_url (fun _ => .response 200 [0x0a, 0x01] "t" "2") 2
    = (true, "OK (t, 2 bytes)", 200) := by decide

example : static_check_url (fun _ => .response 200 [0x50, 0x4b, 0x03, 0x04, 9] "t" "5") 2
    = (true, "OK (ZIP file, 5 bytes)", 200) := by decide

example : static_check_url (fun _ => .httpError 500 "ISE") 2
    = (false, "HTTP 500: ISE", 500) := by decide

/-! ## Helper lemmas -/

/-- The required-field loops of both validators, written as `foldl`,
produce exactly the filtered, message-mapped field list appended to
the accumulator. -/
lemma foldl_append_ite (l : List String) (p : String → Bool) (msg : String → String)
    (pre : List String) :
    l.foldl (fun acc k => if p k then acc ++ [msg k] else acc) pre
      = pre ++ (l.filter p).map msg := by
  induction l generalizing pre with
  | nil => simp
  | cons a l ih =>
    simp only [List.foldl, List.filter]
    by_cases h : p a
    · simp [h, ih, List.append_assoc]
    · simp [h, ih]

/-- Decomposition of the static validator's error list into the three
ordered segments. -/
lemma validate_feed_errors_eq (f : Feed) :
    (validate_feed_structure f).2 =
      ((feed_required_fields.filter (fun k => !feed_has f k)).map
          (fun k => "Missing required field: " ++ k))
      ++ ((match f.type? with
          | some t => if t == "gtfs" then []
              else ["Invalid type: " ++ t ++ " (expected \x27gtfs\x27)"]
          | none => []) : List String)
      ++ ((match f.source? with
          | some s => if url_has_scheme_netloc s then []
              else ["Invalid source URL: " ++ s]
          | none => []) : List String)
      ++ ((match f.reference? with
          | some s => if url_has_scheme_netloc s then []
              else ["Invalid reference URL: " ++ s]
          | none => []) : List String) := by
  cases h1 : f.type? <;> cases h2 : f.source? <;> cases h3 : f.reference? <;>
    simp only [validate_feed_structure, foldl_append_ite, List.nil_append, h1, h2, h3] <;>
    (repeat' split) <;> simp [List.append_assoc]

/-- Decomposition of the realtime validator's error list into the
three ordered segments. -/
lemma validate_updater_errors_eq (u : Updater) :
    (validate_updater_structure u).2 =
      ((updater_required_fields.filter (fun k => !updater_has u k)).map
          (fun k => "Missing required field: " ++ k))
      ++ ((match u.type? with
          | some t => if valid_types.contains t then []
              else ["Invalid type: " ++ t ++ " (expected valid OTP updater type)"]
          | none => []) : List String)
      ++ ((match u.url? with
          | some s => if url_has_scheme_netloc s then []
              else ["Invalid URL: " ++ s]
          | none => []) : List String) := by
  cases h1 : u.type? <;> cases h2 : u.url? <;>
    simp only [validate_updater_structure, foldl_append_ite, List.nil_append, h1, h2] <;>
    (repeat' split) <;> simp [List.append_assoc]

/-- The boolean a validator returns is by construction the emptiness
test of the error list it returns. -/
lemma length_beq_zero_iff (L : List String) : ((L.length == 0) = true) ↔ L = [] := by
  simp [List.length_eq_zero]

/-- Whether a loop step is an immediate success return. -/
def stepDoneTrue : AttemptStep → Bool
  | .done (true, _, _) => true
  | _ => false

lemma stepDoneTrue_done (r : Bool × String × Nat) : stepDoneTrue (.done r) = r.1 := by
  obtain ⟨b, m, c⟩ := r
  cases b <;> rfl

/-- Every `retry` step of either classifier carries a failure result. -/
lemma static_attempt_retry_false (o : Outcome) (r : Bool × String × Nat)
    (h : static_attempt o = .retry r) : r.1 = false := by
  cases o with
  | response s sample ct cl =>
    simp only [static_attempt] at h
    repeat' split at h
    all_goals exact absurd h (by simp)
  | httpError c reason => rw [static_attempt] at h; cases h; rfl
  | urlError reason => rw [static_attempt] at h; cases h; rfl
  | timeout => rw [static_attempt] at h; cases h; rfl
  | exn n m => rw [static_attempt] at h; cases h; rfl

lemma rt_attempt_retry_false (o : Outcome) (r : Bool × String × Nat)
    (h : rt_attempt o = .retry r) : r.1 = false := by
  cases o with
  | response s sample ct cl =>
    simp only [rt_attempt] at h
    repeat' split at h
    all_goals exact absurd h (by simp)
  | httpError c reason =>
    simp only [rt_attempt] at h
    split at h
    · exact absurd h (by simp)
    · cases h; rfl
  | urlError reason => rw [rt_attempt] at h; cases h; rfl
  | timeout => rw [rt_attempt] at h; cases h; rfl
  | exn n m => rw [rt_attempt] at h; cases h; rfl

/-- The static classifier retries exactly on the exception outcomes. -/
lemma static_attempt_retry_iff (o : Outcome) :
    (∃ r, static_attempt o = .retry r) ↔ staticRetryable o = true := by
  cases o with
  | response s sample ct cl =>
    simp only [staticRetryable, Bool.false_eq_true, iff_false, not_exists]
    intro r h
    simp only [static_attempt] at h
    repeat' split at h
    all_goals exact absurd h (by simp)
  | httpError c reason => simp [static_attempt, staticRetryable]
  | urlError reason => simp [static_attempt, staticRetryable]
  | timeout => simp [static_attempt, staticRetryable]
  | exn n m => simp [static_attempt, staticRetryable]

/-- The realtime classifier retries on the exception outcomes other
than an `HTTPError` 429. -/
lemma rt_attempt_retry_of_retryable (o : Outcome) (h : rtRetryable o = true) :
    ∃ r, rt_attempt o = .retry r := by
  cases o with
  | response s sample ct cl => simp [rtRetryable] at h
  | httpError c reason =>
    simp only [rtRetryable, Bool.not_eq_eq_eq_not, Bool.not_true, beq_eq_false_iff_ne,
      ne_eq] at h
    refine ⟨(false, "HTTP " ++ toString c ++ ": " ++ reason, c), ?_⟩
    simp [rt_attempt, h]
  | urlError reason => exact ⟨_, rfl⟩
  | timeout => exact ⟨_, rfl⟩
  | exn n m => exact ⟨_, rfl⟩

/-- The static classifier returns an immediate success exactly on a
200 response with a non-empty sample. -/
lemma static_attempt_doneTrue_iff (o : Outcome) :
    stepDoneTrue (static_attempt o) = true ↔
      ∃ sample ctype clen, o = .response 200 sample ctype clen ∧ sample ≠ [] := by
  cases o with
  | response s sample ct cl =>
    by_cases h200 : s = 200
    · subst h200
      by_cases hzip : sample.take 4 == [0x50, 0x4b, 0x03, 0x04]
      · have hne : sample ≠ [] := by
          intro he; subst he; exact absurd hzip (by decide)
        simp [static_attempt, hzip, stepDoneTrue, hne]
      · by_cases hlen : sample.length > 0
        · have hne : sample ≠ [] := by
            intro he; subst he; simp at hlen
          simp [static_attempt, hzip, hlen, stepDoneTrue, hne]
        · have he : sample = [] := by
            simpa [List.length_eq_zero] using hlen
          subst he
          simp [static_attempt, stepDoneTrue]
    · simp [static_attempt, h200, stepDoneTrue, Ne.symm h200]
  | httpError c reason => simp [static_attempt, stepDoneTrue]
  | urlError reason => simp [static_attempt, stepDoneTrue]
  | timeout => simp [static_attempt, stepDoneTrue]
  | exn n m => simp [static_attempt, stepDoneTrue]

/-- The retry loop returns success exactly when some attempt within
the bound yields an immediate success after only retryable attempts. -/
lemma probe_loop_true_iff (step : Outcome → AttemptStep) (net : Nat → Outcome)
    (hretry : ∀ o r, step o = .retry r → r.1 = false) :
    ∀ fuel start, ((probe_loop step net start fuel).1.1 = true) ↔
      ∃ k, k < fuel ∧ (∀ j, j < k → ∃ r, step (net (start + j)) = .retry r) ∧
        stepDoneTrue (step (net (start + k))) = true := by
  intro fuel
  induction fuel with
  | zero => intro start; simp [probe_loop]
  | succ fuel ih =>
    intro start
    rw [probe_loop]
    cases hstep : step (net start) with
    | done r =>
      simp only []
      constructor
      · intro h
        refine ⟨0, Nat.succ_pos _, fun j hj => absurd hj (Nat.not_lt_zero j), ?_⟩
        rw [Nat.add_zero, hstep, stepDoneTrue_done]
        exact h
      · rintro ⟨k, _, hpre, hdone⟩
        match k with
        | 0 =>
          rw [Nat.add_zero, hstep, stepDoneTrue_done] at hdone
          exact hdone
        | k' + 1 =>
          obtain ⟨r', hr'⟩ := hpre 0 (Nat.succ_pos _)
          rw [Nat.add_zero, hstep] at hr'
          exact absurd hr' (by simp)
    | retry r =>
      simp only []
      by_cases hf : fuel = 0
      · subst hf
        simp only [if_pos rfl]
        constructor
        · intro h
          exact absurd h (by simp [hretry _ _ hstep])
        · rintro ⟨k, hk, hpre, hdone⟩
          interval_cases k
          rw [Nat.add_zero, hstep] at hdone
          exact absurd hdone (by simp [stepDoneTrue])
      · rw [if_neg hf]
        simp only []
        rw [ih (start + 1)]
        constructor
        · rintro ⟨k, hk, hpre, hdone⟩
          refine ⟨k + 1, by omega, ?_, ?_⟩
          · intro j hj
            match j with
            | 0 => exact ⟨r, by rw [Nat.add_zero]; exact hstep⟩
            | j' + 1 =>
              have := hpre j' (by omega)
              rwa [show start + 1 + j' = start + (j' + 1) by omega] at this
          · rwa [show start + 1 + k = start + (k + 1) by omega] at hdone
        · rintro ⟨k, hk, hpre, hdone⟩
          match k with
          | 0 =>
            rw [Nat.add_zero, hstep] at hdone
            exact absurd hdone (by simp [stepDoneTrue])
          | k' + 1 =>
            refine ⟨k', by omega, ?_, ?_⟩
            · intro j hj
              have := hpre (j + 1) (by omega)
              rwa [show start + (j + 1) = start + 1 + j by omega] at this
            · rwa [show start + (k' + 1) = start + 1 + k' by omega] at hdone

/-- Reaching attempt `k` (all earlier attempts retryable) and getting
an immediate return there: the loop returns that result after exactly
`k + 1` attempts. -/
lemma probe_loop_done (step : Outcome → AttemptStep) (net : Nat → Outcome) :
    ∀ fuel start k res, k < fuel →
      (∀ j, j < k → ∃ r, step (net (start + j)) = .retry r) →
      step (net (start + k)) = .done res →
      probe_loop step net start fuel = (res, k + 1) := by
  intro fuel
  induction fuel with
  | zero => intro start k res hk; omega
  | succ fuel ih =>
    intro start k res hk hpre hdone
    match k with
    | 0 =>
      rw [Nat.add_zero] at hdone
      simp [probe_loop, hdone]
    | k' + 1 =>
      obtain ⟨r, hr⟩ := hpre 0 (Nat.succ_pos _)
      rw [Nat.add_zero] at hr
      have hf : ¬fuel = 0 := by omega
      simp only [probe_loop, hr, if_neg hf]
      have hrec := ih (start + 1) k' res (by omega)
        (fun j hj => by
          have := hpre (j + 1) (by omega)
          rwa [show start + (j + 1) = start + 1 + j by omega] at this)
        (by rwa [show start + (k' + 1) = start + 1 + k' by omega] at hdone)
      simp [hrec]

/-- When every attempt within the bound is retryable, the loop returns
the last attempt's failure after exactly `fuel` attempts. -/
lemma probe_loop_exhaust (step : Outcome → AttemptStep) (net : Nat → Outcome) :
    ∀ fuel start res, 0 < fuel →
      (∀ j, j < fuel - 1 → ∃ r, step (net (start + j)) = .retry r) →
      step (net (start + (fuel - 1))) = .retry res →
      probe_loop step net start fuel = (res, fuel) := by
  intro fuel
  induction fuel with
  | zero => intro start res h; omega
  | succ fuel ih =>
    intro start res _ hpre hlast
    by_cases hf : fuel = 0
    · subst hf
      rw [show start + (0 + 1 - 1) = start by omega] at hlast
      simp [probe_loop, hlast]
    · obtain ⟨r, hr⟩ := hpre 0 (by omega)
      rw [Nat.add_zero] at hr
      simp only [probe_loop, hr, if_neg hf]
      have hrec := ih (start + 1) res (by omega)
        (fun j hj => by
          have := hpre (j + 1) (by omega)
          rwa [show start + (j + 1) = start + 1 + j by omega] at this)
        (by
          have := hlast
          rwa [show start + (fuel + 1 - 1) = start + 1 + (fuel - 1) by omega] at this)
      simp [hrec]

/-! ## Claims -/

/-- C10: both structural validators return `valid = true` exactly when
the returned error list is empty: the boolean result is the emptiness
of the accumulated error list, so a record can never be reported valid
alongside a non-empty error list or invalid with an empty one. -/
theorem c10_valid_iff_errors_empty (f : Feed) (u : Updater) :
    ((validate_feed_structure f).1 = true ↔ (validate_feed_structure f).2 = [])
    ∧ ((validate_updater_structure u).1 = true ↔ (validate_updater_structure u).2 = []) :=
  ⟨length_beq_zero_iff (validate_feed_structure f).2,
   length_beq_zero_iff (validate_updater_structure u).2⟩

/-- C9: each validator's error list is ordered with all
missing-required-field errors first, in the declared field order, each
contributing exactly the string `Missing required field: <key>`; then
the invalid-type error if any; then the invalid-URL errors for the URL
fields. -/
theorem c9_validator_error_order (f : Feed) (u : Updater) :
    (validate_feed_structure f).2 =
      ((feed_required_fields.filter (fun k => !feed_has f k)).map
          (fun k => "Missing required field: " ++ k))
      ++ ((match f.type? with
          | some t => if t == "gtfs" then []
              else ["Invalid type: " ++ t ++ " (expected \x27gtfs\x27)"]
          | none => []) : List String)
      ++ ((match f.source? with
          | some s => if url_has_scheme_netloc s then []
              else ["Invalid source URL: " ++ s]
          | none => []) : List String)
      ++ ((match f.reference? with
          | some s => if url_has_scheme_netloc s then []
              else ["Invalid reference URL: " ++ s]
          | none => []) : List String)
    ∧ (validate_updater_structure u).2 =
      ((updater_required_fields.filter (fun k => !updater_has u k)).map
          (fun k => "Missing required field: " ++ k))
      ++ ((match u.type? with
          | some t => if valid_types.contains t then []
              else ["Invalid type: " ++ t ++ " (expected valid OTP updater type)"]
          | none => []) : List String)
      ++ ((match u.url? with
          | some s => if url_has_scheme_netloc s then []
              else ["Invalid URL: " ++ s]
          | none => []) : List String) :=
  ⟨validate_feed_errors_eq f, validate_updater_errors_eq u⟩

/-- Exit-code arithmetic shared by both `main` functions. -/
lemma exit_code_spec (failed se : Nat) :
    (((if failed > 0 ∨ se > 0 then 1 else 0) : Nat) = 0 ↔ failed = 0 ∧ se = 0)
    ∧ (((if failed > 0 ∨ se > 0 then 1 else 0) : Nat) = 1 ↔ ¬(failed = 0 ∧ se = 0)) := by
  by_cases h : failed > 0 ∨ se > 0 <;> simp [h] <;> omega

/-- C5: for every run of either pipeline that gets past input loading,
the process exit status is 0 if and only if both the failed counter
and the structural-error counter are zero after all records are
processed, and 1 otherwise. -/
theorem c5_exit_status (netS netR : Nat → Nat → Outcome)
    (feeds : List Feed) (updaters : List Updater) :
    (static_exit netS feeds = 0 ↔
      (static_run netS feeds).failed = 0 ∧ (static_run netS feeds).structure_errors = 0)
    ∧ (static_exit netS feeds = 1 ↔
      ¬((static_run netS feeds).failed = 0 ∧ (static_run netS feeds).structure_errors = 0))
    ∧ (rt_exit netR updaters = 0 ↔
      (rt_run netR updaters).failed = 0 ∧ (rt_run netR updaters).structure_errors = 0)
    ∧ (rt_exit netR updaters = 1 ↔
      ¬((rt_run netR updaters).failed = 0 ∧ (rt_run netR updaters).structure_errors = 0)) :=
  ⟨(exit_code_spec _ _).1, (exit_code_spec _ _).2,
   (exit_code_spec _ _).1, (exit_code_spec _ _).2⟩

/-- C3: in the realtime prober, a response with HTTP status 204 or 429
is classified success regardless of body content (204 with a
no-updates message, 429 with a rate-limited message, including a 429
delivered as an `HTTPError`), while an HTTP 200 response with an empty
body sample is classified failure with message "Empty response". -/
theorem c3_rt_status_policy (sample : List Nat) (ctype clen reason : String) :
    rt_check_url (fun _ => .response 204 sample ctype clen) MAX_RETRIES
      = (true, "OK (No Content - no updates available)", 204)
    ∧ rt_check_url (fun _ => .response 429 sample ctype clen) MAX_RETRIES
      = (true, "OK (Rate limited - endpoint is working)", 429)
    ∧ rt_check_url (fun _ => .httpError 429 reason) MAX_RETRIES
      = (true, "OK (Rate limited - endpoint is working)", 429)
    ∧ rt_check_url (fun _ => .response 200 [] ctype clen) MAX_RETRIES
      = (false, "Empty response", 200) := by
  refine ⟨?_, ?_, ?_, ?_⟩ <;>
    simp [rt_check_url, MAX_RETRIES, probe_loop, rt_attempt]

/-- C1 (code bug): the realtime prober's protobuf sniff compares the
two-byte slice `content_sample[0:2]` against the one-byte values
`b'\x0a'`, `b'\x12'`, `b'\x1a'`, so a 200 body of length ≥ 2 whose
first byte is one of the three tag bytes is NOT classified protobuf
(it falls through to the generic success message), while a one-byte
body is.  The claim's first-byte classification is the code comment's
evident intent. -/
theorem c1_protobuf_sniff_eval :
    rt_is_protobuf [0x12, 0x34] = false
    ∧ rt_check_url (fun _ => .response 200 [0x12, 0x34] "application/x-protobuf" "2")
        MAX_RETRIES
      = (true, "OK (application/x-protobuf, 2 bytes)", 200)
    ∧ rt_is_protobuf [0x12] = true
    ∧ rt_check_url (fun _ => .response 200 [0x12] "application/x-protobuf" "1")
        MAX_RETRIES
      = (true, "OK (GTFS-RT protobuf, 1 bytes)", 200)
    ∧ rt_is_protobuf [0x0a, 0x0d, 0x1e, 0x22] = false := by
  refine ⟨by decide, by decide, by decide, by decide, by decide⟩

/-- C2: the static-pipeline `check_url` returns success = true if and
only if the attempt that terminates the loop is an HTTP response with
status 200 and a non-empty body sample, reached after only retryable
(exception) attempts within the retry bound; all other outcomes —
other statuses, HTTP errors, connection errors, timeouts, other
exceptions, an empty 200 body — yield success = false. -/
theorem c2_static_success_iff (net : Nat → Outcome) (retries : Nat) :
    (static_check_url net retries).1 = true ↔
      ∃ k, k < retries ∧ (∀ j, j < k → staticRetryable (net j) = true) ∧
        ∃ sample ctype clen, net k = .response 200 sample ctype clen ∧ sample ≠ [] := by
  have h := probe_loop_true_iff static_attempt net static_attempt_retry_false retries 0
  simp only [Nat.zero_add] at h
  rw [show (static_check_url net retries).1
      = (probe_loop static_attempt net 0 retries).1.1 from rfl, h]
  refine exists_congr fun k => and_congr_right fun _ =>
    and_congr ?_ (static_attempt_doneTrue_iff (net k))
  exact forall_congr' fun j => imp_congr_right fun _ => static_attempt_retry_iff (net j)

/-- C8: in the realtime prober an HTTP 429 error observed on any
attempt returns success immediately with status code 429 and the
rate-limited message, consuming no further attempt; any other HTTP
error status on every attempt is retried only up to the bound of
`MAX_RETRIES = 2` attempts total and then returned as failure with
message `HTTP <code>: <reason>` from the last attempt. -/
theorem c8_rt_retry_policy (net : Nat → Outcome) (retries i : Nat) (reason : String) :
    (i < retries → net i = .httpError 429 reason →
      (∀ j, j < i → rtRetryable (net j) = true) →
      rt_check_url net retries = (true, "OK (Rate limited - endpoint is working)", 429)
      ∧ rt_attempts_used net retries = i + 1)
    ∧ (∀ c0 r0 c1 r1, c0 ≠ 429 → c1 ≠ 429 →
      net 0 = .httpError c0 r0 → net 1 = .httpError c1 r1 →
      rt_check_url net MAX_RETRIES = (false, "HTTP " ++ toString c1 ++ ": " ++ r1, c1)
      ∧ rt_attempts_used net MAX_RETRIES = MAX_RETRIES) := by
  constructor
  · intro hi hnet hpre
    have hdone : rt_attempt (net (0 + i))
        = .done (true, "OK (Rate limited - endpoint is working)", 429) := by
      rw [Nat.zero_add, hnet]; simp [rt_attempt]
    have h := probe_loop_done rt_attempt net retries 0 i
      (true, "OK (Rate limited - endpoint is working)", 429) hi
      (fun j hj => by
        rw [Nat.zero_add]
        exact rt_attempt_retry_of_retryable _ (hpre j hj))
      hdone
    exact ⟨by rw [rt_check_url, h], by rw [rt_attempts_used, h]⟩
  · intro c0 r0 c1 r1 h0 h1 hn0 hn1
    have hlast : rt_attempt (net (0 + (MAX_RETRIES - 1)))
        = .retry (false, "HTTP " ++ toString c1 ++ ": " ++ r1, c1) := by
      rw [show 0 + (MAX_RETRIES - 1) = 1 by simp [MAX_RETRIES], hn1]
      simp [rt_attempt, h1]
    have hpre : ∀ j, j < MAX_RETRIES - 1 →
        ∃ r, rt_attempt (net (0 + j)) = .retry r := by
      intro j hj
      have hj0 : j = 0 := by simp [MAX_RETRIES] at hj; omega
      subst hj0
      rw [Nat.zero_add, hn0]
      exact ⟨(false, "HTTP " ++ toString c0 ++ ": " ++ r0, c0), by simp [rt_attempt, h0]⟩
    have h := probe_loop_exhaust rt_attempt net MAX_RETRIES 0
      (false, "HTTP " ++ toString c1 ++ ": " ++ r1, c1) (by simp [MAX_RETRIES]) hpre hlast
    exact ⟨by rw [rt_check_url, h], by rw [rt_attempts_used, h]⟩

/-- C8 witness: a 429 on the first attempt succeeds after exactly one
attempt; two non-429 HTTP errors exhaust both attempts and fail with
the last error's message. -/
theorem c8_rt_retry_policy_witness :
    (rt_check_url
        (fun j => if j = 0 then Outcome.httpError 429 "Too Many Requests" else Outcome.timeout) 2
      = (true, "OK (Rate limited - endpoint is working)", 429)
    ∧ rt_attempts_used
        (fun j => if j = 0 then Outcome.httpError 429 "Too Many Requests" else Outcome.timeout) 2
      = 1)
    ∧ (rt_check_url
        (fun j => if j = 0 then Outcome.httpError 500 "ISE" else Outcome.httpError 503 "SU")
        MAX_RETRIES
      = (false, "HTTP " ++ toString 503 ++ ": " ++ "SU", 503)
    ∧ rt_attempts_used
        (fun j => if j = 0 then Outcome.httpError 500 "ISE" else Outcome.httpError 503 "SU")
        MAX_RETRIES
      = MAX_RETRIES) := by
  constructor
  · exact (c8_rt_retry_policy _ 2 0 "Too Many Requests").1 (by omega) rfl
      (fun j hj => absurd hj (Nat.not_lt_zero j))
  · exact (c8_rt_retry_policy _ MAX_RETRIES 0 "x").2 500 "ISE" 503 "SU"
      (by omega) (by omega) rfl rfl

/-- C4: if structural validation returns invalid then no probe is
performed on that record and the record's result never reports
reachability success: the realtime `check_updater` keeps
`url_success = false` and its result does not depend on the network at
all, and the static pipeline's per-record step likewise ignores the
network and leaves the success counter unchanged. -/
theorem c4_invalid_never_probed (u : Updater) (idx : Nat) (netA netB : Nat → Outcome)
    (f : Feed) (st : StaticStats) (i : Nat) :
    ((validate_updater_structure u).1 = false →
      (check_updater netA u idx).url_success = false
      ∧ check_updater netA u idx = check_updater netB u idx)
    ∧ ((validate_feed_structure f).1 = false →
      static_process netA st i f = static_process netB st i f
      ∧ (static_process netA st i f).successful = st.successful) := by
  constructor
  · intro h
    constructor <;> simp [check_updater, h]
  · intro h
    constructor <;> simp [static_process, h]

/-- C4 witness: a concrete updater and feed both missing `feedId` are
invalid, are not probed (the result is the same under a network that
times out and one that answers 200), and report no success. -/
theorem c4_invalid_never_probed_witness :
    (validate_updater_structure
      { type? := some "gtfs-http", url? := some "http://x/y", feedId? := none }).1 = false
    ∧ (check_updater (fun _ => Outcome.timeout)
        { type? := some "gtfs-http", url? := some "http://x/y", feedId? := none } 1).url_success
      = false
    ∧ check_updater (fun _ => Outcome.timeout)
        { type? := some "gtfs-http", url? := some "http://x/y", feedId? := none } 1
      = check_updater (fun _ => Outcome.response 200 [1] "t" "1")
        { type? := some "gtfs-http", url? := some "http://x/y", feedId? := none } 1
    ∧ (validate_feed_structure
        { type? := some "gtfs", source? := some "http://x/z", feedId? := none,
          reference? := some "http://x/r" }).1 = false
    ∧ static_process (fun _ => Outcome.timeout) staticStatsInit 1
        { type? := some "gtfs", source? := some "http://x/z", feedId? := none,
          reference? := some "http://x/r" }
      = static_process (fun _ => Outcome.response 200 [1] "t" "1") staticStatsInit 1
        { type? := some "gtfs", source? := some "http://x/z", feedId? := none,
          reference? := some "http://x/r" }
    ∧ (static_process (fun _ => Outcome.timeout) staticStatsInit 1
        { type? := some "gtfs", source? := some "http://x/z", feedId? := none,
          reference? := some "http://x/r" }).successful = staticStatsInit.successful := by
  have h := c4_invalid_never_probed
    { type? := some "gtfs-http", url? := some "http://x/y", feedId? := none } 1
    (fun _ => Outcome.timeout) (fun _ => Outcome.response 200 [1] "t" "1")
    { type? := some "gtfs", source? := some "http://x/z", feedId? := none,
      reference? := some "http://x/r" } staticStatsInit 1
  exact ⟨by decide, (h.1 (by decide)).1, (h.1 (by decide)).2, by decide,
    (h.2 (by decide)).1, (h.2 (by decide)).2⟩

/-- C7 counterexample: one record missing `feedId` in each pipeline
produces a structural error but the `failed` counter of the final
summary stays 0 — the claim that such a record contributes to the
failure count is false on the code. -/
theorem c7_structural_error_counterexample :
    (static_run (fun _ _ => Outcome.timeout)
        [{ type? := some "gtfs", source? := some "http://x/z", feedId? := none,
           reference? := some "http://x/r" }]).structure_errors = 1
    ∧ (static_run (fun _ _ => Outcome.timeout)
        [{ type? := some "gtfs", source? := some "http://x/z", feedId? := none,
           reference? := some "http://x/r" }]).failed = 0
    ∧ (rt_run (fun _ _ => Outcome.timeout)
        [{ type? := some "gtfs-http", url? := some "http://x/y", feedId? := none }]).structure_errors
      = 1
    ∧ (rt_run (fun _ _ => Outcome.timeout)
        [{ type? := some "gtfs-http", url? := some "http://x/y", feedId? := none }]).failed
      = 0 := by
  refine ⟨by decide, by decide, by decide, by decide⟩

/-- C7 (amended): a record missing `feedId` gets the error
`Missing required field: feedId`, is never probed (the per-record
result is network-independent), and contributes to the
structural-error count and to the itemized failure list — but not to
the `failed` counter of the final summary. -/
theorem c7_missing_feedid_amended (f : Feed) (u : Updater) (netA netB : Nat → Outcome)
    (st : StaticStats) (str : RtStats) (i idx : Nat) :
    (f.feedId? = none →
      "Missing required field: feedId" ∈ (validate_feed_structure f).2
      ∧ static_process netA st i f = static_process netB st i f
      ∧ (static_process netA st i f).structure_errors = st.structure_errors + 1
      ∧ (static_process netA st i f).failed = st.failed
      ∧ (static_process netA st i f).failed_feeds.length = st.failed_feeds.length + 1)
    ∧ (u.feedId? = none →
      "Missing required field: feedId" ∈ (validate_updater_structure u).2
      ∧ check_updater netA u idx = check_updater netB u idx
      ∧ (check_updater netA u idx).url_success = false
      ∧ (rt_aggregate_step str (check_updater netA u idx)).structure_errors
        = str.structure_errors + 1
      ∧ (rt_aggregate_step str (check_updater netA u idx)).failed = str.failed
      ∧ (rt_aggregate_step str (check_updater netA u idx)).failed_updaters.length
        = str.failed_updaters.length + 1) := by
  constructor
  · intro h
    have hhas : feed_has f "feedId" = false := by simp [feed_has, h]
    have hmem : "Missing required field: feedId" ∈ (validate_feed_structure f).2 := by
      rw [validate_feed_errors_eq]
      refine List.mem_append_left _ (List.mem_append_left _ (List.mem_append_left _ ?_))
      have h1 : "feedId" ∈ List.filter (fun k => !feed_has f k) feed_required_fields :=
        List.mem_filter.mpr ⟨by decide,
          show (!feed_has f "feedId") = true by rw [hhas]; rfl⟩
      exact List.mem_map_of_mem _ h1
    have hne : (validate_feed_structure f).2.length ≠ 0 := by
      intro h0
      rw [List.length_eq_zero.mp h0] at hmem
      exact (List.not_mem_nil _) hmem
    have hinvalid : (validate_feed_structure f).1 = false := by
      rw [show (validate_feed_structure f).1
          = ((validate_feed_structure f).2.length == 0) from rfl]
      exact beq_eq_false_iff_ne.mpr hne
    refine ⟨hmem, ?_, ?_, ?_, ?_⟩ <;> simp [static_process, hinvalid]
  · intro h
    have hhas : updater_has u "feedId" = false := by simp [updater_has, h]
    have hmem : "Missing required field: feedId" ∈ (validate_updater_structure u).2 := by
      rw [validate_updater_errors_eq]
      refine List.mem_append_left _ (List.mem_append_left _ ?_)
      have h1 : "feedId" ∈ List.filter (fun k => !updater_has u k) updater_required_fields :=
        List.mem_filter.mpr ⟨by decide,
          show (!updater_has u "feedId") = true by rw [hhas]; rfl⟩
      exact List.mem_map_of_mem _ h1
    have hne : (validate_updater_structure u).2.length ≠ 0 := by
      intro h0
      rw [List.length_eq_zero.mp h0] at hmem
      exact (List.not_mem_nil _) hmem
    have hinvalid : (validate_updater_structure u).1 = false := by
      rw [show (validate_updater_structure u).1
          = ((validate_updater_structure u).2.length == 0) from rfl]
      exact beq_eq_false_iff_ne.mpr hne
    refine ⟨hmem, ?_, ?_, ?_, ?_, ?_⟩ <;>
      simp [check_updater, rt_aggregate_step, hinvalid]

/-- C7 witness: the amended statement at a concrete feed and updater,
each missing `feedId`. -/
theorem c7_missing_feedid_amended_witness :
    "Missing required field: feedId" ∈ (validate_feed_structure
      { type? := some "gtfs", source? := some "http://x/z", feedId? := none,
        reference? := some "http://x/r" }).2
    ∧ (static_process (fun _ => Outcome.timeout) staticStatsInit 1
        { type? := some "gtfs", source? := some "http://x/z", feedId? := none,
          reference? := some "http://x/r" }).structure_errors
      = staticStatsInit.structure_errors + 1
    ∧ (static_process (fun _ => Outcome.timeout) staticStatsInit 1
        { type? := some "gtfs", source? := some "http://x/z", feedId? := none,
          reference? := some "http://x/r" }).failed = staticStatsInit.failed
    ∧ "Missing required field: feedId" ∈ (validate_updater_structure
        { type? := some "gtfs-http", url? := some "http://x/y", feedId? := none }).2
    ∧ (rt_aggregate_step rtStatsInit (check_updater (fun _ => Outcome.timeout)
        { type? := some "gtfs-http", url? := some "http://x/y", feedId? := none } 1)).failed
      = rtStatsInit.failed := by
  have h := c7_missing_feedid_amended
    { type? := some "gtfs", source? := some "http://x/z", feedId? := none,
      reference? := some "http://x/r" }
    { type? := some "gtfs-http", url? := some "http://x/y", feedId? := none }
    (fun _ => Outcome.timeout) (fun _ => Outcome.timeout) staticStatsInit rtStatsInit 1 1
  exact ⟨(h.1 rfl).1, (h.1 rfl).2.2.1, (h.1 rfl).2.2.2.1, (h.2 rfl).1,
    (h.2 rfl).2.2.2.2.1⟩

/-- The fuel of `replaceAllAux` is irrelevant once it covers the input
length. -/
lemma replaceAllAux_fuel (p r : List Char) :
    ∀ f1 f2 s, s.length ≤ f1 → s.length ≤ f2 →
      replaceAllAux p r f1 s = replaceAllAux p r f2 s := by
  intro f1
  induction f1 with
  | zero =>
    intro f2 s h1 _
    have hs : s = [] := List.length_eq_zero.mp (Nat.le_zero.mp h1)
    subst hs
    cases f2 <;> rfl
  | succ g1 ih =>
    intro f2 s h1 h2
    cases s with
    | nil => cases f2 <;> rfl
    | cons c t =>
      cases f2 with
      | zero => simp at h2
      | succ g2 =>
        have hl1 : t.length + 1 ≤ g1 + 1 := by simpa using h1
        have hl2 : t.length + 1 ≤ g2 + 1 := by simpa using h2
        simp only [replaceAllAux]
        by_cases hc : (!p.isEmpty && p.isPrefixOf (c :: t)) = true
        · rw [if_pos hc, if_pos hc]
          have hp : p ≠ [] := by
            have hand : (!p.isEmpty) = true ∧ p.isPrefixOf (c :: t) = true := by
              simpa using hc
            simpa using hand.1
          have hplen : 1 ≤ p.length := List.length_pos.mpr hp
          have hd1 : ((c :: t).drop p.length).length ≤ g1 := by
            simp only [List.length_drop, List.length_cons]
            omega
          have hd2 : ((c :: t).drop p.length).length ≤ g2 := by
            simp only [List.length_drop, List.length_cons]
            omega
          rw [ih g2 _ hd1 hd2]
        · rw [if_neg hc, if_neg hc]
          rw [ih g2 t (by omega) (by omega)]

/-- A segment never occurs in a list exactly when it is non-empty and
does not occur; in particular the empty segment always occurs. -/
lemma containsSeg_nil_left : ∀ s : List Char, containsSeg [] s = true := by
  intro s; cases s <;> rfl

lemma containsSeg_ne_nil {p s : List Char} (h : containsSeg p s = false) : p ≠ [] := by
  intro hp
  subst hp
  rw [containsSeg_nil_left] at h
  exact Bool.noConfusion h

/-- `str.replace` skips a position where the pattern does not match. -/
lemma replaceAll_cons_neg (p r : List Char) (c : Char) (t : List Char)
    (h : p.isPrefixOf (c :: t) = false) :
    replaceAll p r (c :: t) = c :: replaceAll p r t := by
  show replaceAllAux p r (t.length + 1) (c :: t) = c :: replaceAll p r t
  simp only [replaceAllAux, h, Bool.and_false]
  rfl

/-- `str.replace` leaves a string without occurrences of the pattern
unchanged. -/
lemma replaceAll_not_contains (p r : List Char) :
    ∀ s, containsSeg p s = false → replaceAll p r s = s := by
  intro s
  induction s with
  | nil => intro _; rfl
  | cons c t ih =>
    intro h
    have h' : p.isPrefixOf (c :: t) = false ∧ containsSeg p t = false := by
      simpa [containsSeg] using h
    rw [replaceAll_cons_neg p r c t h'.1, ih h'.2]

/-- `str.replace` replaces a match at the head of the string. -/
lemma replaceAll_head (p r : List Char) (s : List Char) (hp : p ≠ []) :
    replaceAll p r (p ++ s) = r ++ replaceAll p r s := by
  cases p with
  | nil => exact absurd rfl hp
  | cons c p' =>
    have hpre : (c :: p').isPrefixOf (c :: (p' ++ s)) = true := by
      rw [List.isPrefixOf_iff_prefix]
      exact List.prefix_append (c :: p') s
    have hdrop : (c :: (p' ++ s)).drop (c :: p').length = s := by
      show (p' ++ s).drop p'.length = s
      exact List.drop_left p' s
    show replaceAllAux (c :: p') r ((p' ++ s).length + 1) (c :: (p' ++ s)) = _
    simp only [replaceAllAux, hpre, List.isEmpty_cons, Bool.not_false, Bool.true_and,
      if_true, hdrop]
    rw [replaceAllAux_fuel (c :: p') r (p' ++ s).length s.length s
      (by simp only [List.length_append]; omega) (Nat.le_refl _)]
    rfl

/-- `str.replace` replaces the first occurrence of the pattern in
place: when no occurrence starts inside `a`, the occurrence after `a`
is replaced and scanning continues after it. -/
lemma replaceAll_first (p r b : List Char) :
    ∀ a, containsSeg p (a ++ p.dropLast) = false →
      replaceAll p r (a ++ (p ++ b)) = a ++ (r ++ replaceAll p r b) := by
  intro a
  induction a with
  | nil =>
    intro h
    have hp : p ≠ [] := containsSeg_ne_nil h
    simpa using replaceAll_head p r b hp
  | cons c a' ih =>
    intro h
    have hp : p ≠ [] := containsSeg_ne_nil h
    have h' : p.isPrefixOf (c :: (a' ++ p.dropLast)) = false
        ∧ containsSeg p (a' ++ p.dropLast) = false := by
      simpa [containsSeg] using h
    have hnotpre : p.isPrefixOf (c :: (a' ++ (p ++ b))) = false := by
      cases hX : p.isPrefixOf (c :: (a' ++ (p ++ b))) with
      | false => rfl
      | true =>
        exfalso
        have hpre : p <+: c :: (a' ++ (p ++ b)) := List.isPrefixOf_iff_prefix.mp hX
        have hM : c :: (a' ++ p.dropLast) <+: c :: (a' ++ (p ++ b)) := by
          rw [List.prefix_cons_inj, List.prefix_append_right_inj]
          exact (List.dropLast_prefix p).trans (List.prefix_append p b)
        have hplen : 1 ≤ p.length := List.length_pos.mpr hp
        have hlen : p.length ≤ (c :: (a' ++ p.dropLast)).length := by
          simp only [List.length_cons, List.length_append, List.length_dropLast]
          omega
        have hfin : p <+: c :: (a' ++ p.dropLast) :=
          List.prefix_of_prefix_length_le hpre hM hlen
        exact absurd (List.isPrefixOf_iff_prefix.mpr hfin) (by simp [h'.1])
    show replaceAll p r (c :: (a' ++ (p ++ b))) = c :: (a' ++ (r ++ replaceAll p r b))
    rw [replaceAll_cons_neg p r c (a' ++ (p ++ b)) hnotpre, ih h'.2]

/-- C6 counterexample: a placeholder token `\x7b\x7b\x7bFOO\x7d\x7d\x7d`
with an environment that maps every name (FOO included) to `bar` is
left untouched by the loader — the claim that every `\x7b\x7b\x7bNAME\x7d\x7d\x7d`
token is substituted is false on the code, which replaces only the two
fixed `JP_API_KEY` tokens. -/
theorem c6_placeholder_counterexample :
    load_substitute "\x7b\x7b\x7bFOO\x7d\x7d\x7d".data (fun _ => "bar".data)
      = "\x7b\x7b\x7bFOO\x7d\x7d\x7d".data
    ∧ "\x7b\x7b\x7bFOO\x7d\x7d\x7d".data ≠ "bar".data := by
  refine ⟨by decide, by decide⟩

/-- C6 (amended): the loader substitutes, on the raw document text
before JSON parsing, exactly the two placeholder tokens
`\x7b\x7b\x7bJP_API_KEY\x7d\x7d\x7d` and
`\x7b\x7b\x7bJP_CHALLENGE_API_KEY\x7d\x7d\x7d`, each by the value of
the identically-named environment variable (empty if unset); text
without these two tokens — any other `\x7b\x7b\x7bNAME\x7d\x7d\x7d`
token included — is left unchanged. -/
theorem c6_placeholder_substitution_amended (env : String → List Char)
    (content a b : List Char) :
    (containsSeg jpApiKeyToken content = false →
      containsSeg jpChallengeApiKeyToken content = false →
      load_substitute content env = content)
    ∧ (containsSeg jpApiKeyToken (a ++ jpApiKeyToken.dropLast) = false →
      containsSeg jpApiKeyToken b = false →
      containsSeg jpChallengeApiKeyToken (a ++ (env "JP_API_KEY" ++ b)) = false →
      load_substitute (a ++ (jpApiKeyToken ++ b)) env = a ++ (env "JP_API_KEY" ++ b))
    ∧ (containsSeg jpApiKeyToken (a ++ (jpChallengeApiKeyToken ++ b)) = false →
      containsSeg jpChallengeApiKeyToken (a ++ jpChallengeApiKeyToken.dropLast) = false →
      containsSeg jpChallengeApiKeyToken b = false →
      load_substitute (a ++ (jpChallengeApiKeyToken ++ b)) env
        = a ++ (env "JP_CHALLENGE_API_KEY" ++ b)) := by
  refine ⟨?_, ?_, ?_⟩
  · intro h1 h2
    simp only [load_substitute]
    rw [replaceAll_not_contains jpApiKeyToken (env "JP_API_KEY") content h1,
      replaceAll_not_contains jpChallengeApiKeyToken (env "JP_CHALLENGE_API_KEY") content h2]
  · intro h1 h2 h3
    simp only [load_substitute]
    rw [replaceAll_first jpApiKeyToken (env "JP_API_KEY") b a h1,
      replaceAll_not_contains jpApiKeyToken (env "JP_API_KEY") b h2]
    exact replaceAll_not_contains jpChallengeApiKeyToken (env "JP_CHALLENGE_API_KEY") _ h3
  · intro h1 h2 h3
    simp only [load_substitute]
    rw [replaceAll_not_contains jpApiKeyToken (env "JP_API_KEY") _ h1,
      replaceAll_first jpChallengeApiKeyToken (env "JP_CHALLENGE_API_KEY") b a h2,
      replaceAll_not_contains jpChallengeApiKeyToken (env "JP_CHALLENGE_API_KEY") b h3]

/-- C6 witness: the amended statement at a concrete document
`x` ++ token ++ `y`: the `JP_API_KEY` token is replaced by the
environment value. -/
theorem c6_placeholder_substitution_amended_witness :
    containsSeg jpApiKeyToken ("x".data ++ jpApiKeyToken.dropLast) = false
    ∧ containsSeg jpApiKeyToken "y".data = false
    ∧ containsSeg jpChallengeApiKeyToken
        ("x".data ++ (envWitness "JP_API_KEY" ++ "y".data)) = false
    ∧ load_substitute ("x".data ++ (jpApiKeyToken ++ "y".data)) envWitness
      = "x".data ++ (envWitness "JP_API_KEY" ++ "y".data) := by
  refine ⟨by decide, by decide, by decide, ?_⟩
  exact (c6_placeholder_substitution_amended envWitness [] "x".data "y".data).2.1
    (by decide) (by decide) (by decide)

end Datasets
